import Mathlib

/-!
Shallow embedding of the `uds/logger.h` logging facade from the kvdo
repository, together with theorems settling the specification claims.

The repository provides only the header `src/uds/logger.h`: the priority
constants, the `PRIptr` format-specifier selection and the `logRatelimit`
macro are embedded directly from that source.  The function bodies
(`logger.c`) are not part of the repository snapshot, so the emission
primitives are modelled from the specification, as indicated by the
`Modelled from the spec:` doc comments.

State is made explicit: a `LogState` carries the process-wide log level,
the ordered trace of backend calls made so far, and the caller's ambient
last-error indicator (`errno`).  The backend, an external collaborator
(syslog in user space, the kernel ring buffer in kernel space), is
modelled as appending one entry to the trace and overwriting `errno`
with an arbitrary value `backendErrno` chosen by the environment.
-/

namespace UdsLogger

/-! ### Priority constants, from `logger.h` lines 33-42 (`#define LOG_EMERG 0` .. `#define LOG_DEBUG 7`) -/

def LOG_EMERG : Int := 0

def LOG_ALERT : Int := 1

def LOG_CRIT : Int := 2

def LOG_ERR : Int := 3

def LOG_WARNING : Int := 4

def LOG_NOTICE : Int := 5

def LOG_INFO : Int := 6

def LOG_DEBUG : Int := 7

/-- The explicit state threaded through the facade: the process-wide log
level, the ordered trace of `(priority, message)` pairs handed to the
backend, and the caller's ambient last-error indicator. -/
structure LogState where
  logLevel : Int
  backendCalls : List (Int × String)
  errno : Int
deriving Repr, DecidableEq

/-- Modelled from the spec: the external backend sink (syslog in user
space, the kernel log buffer in kernel space) is not part of this
repository.  Writing a message to it appends one call to the trace, and
the backend call may itself set the ambient last-error indicator, here
to an arbitrary environment-chosen value `backendErrno`. -/
def backendEmit (backendErrno priority : Int) (msg : String) (s : LogState) : LogState :=
  { s with backendCalls := s.backendCalls ++ [(priority, msg)], errno := backendErrno }

/-- Modelled from the spec: `getLogLevel` (declared `logger.h` line 106)
reads the process-wide minimum priority. -/
def getLogLevel (s : LogState) : Int :=
  s.logLevel

/-- Modelled from the spec: `setLogLevel` (declared `logger.h` line 113)
writes the process-wide minimum priority. -/
def setLogLevel (newLogLevel : Int) (s : LogState) : LogState :=
  { s with logLevel := newLogLevel }

/-- Modelled from the spec: `vLogMessage` (declared `logger.h` line 294),
the base emission primitive; `logger.c` is absent from the snapshot.
If the priority is at or above the configured threshold (numerically
`priority <= level`, the syslog convention where smaller numbers are
more urgent) the rendered message is forwarded to the backend in exactly
one call; otherwise nothing happens.  Either way the caller's `errno` is
restored to the value found on entry. -/
def vLogMessage (backendErrno priority : Int) (msg : String) (s : LogState) : LogState :=
  let saved := s.errno
  let s1 := if priority ≤ getLogLevel s then backendEmit backendErrno priority msg s else s
  { s1 with errno := saved }

/-- Modelled from the spec: `logMessage` (declared `logger.h` line 303)
renders its format and arguments (abstracted here as the already-rendered
string `msg`) and defers to `vLogMessage`. -/
def logMessage (backendErrno priority : Int) (msg : String) (s : LogState) : LogState :=
  vLogMessage backendErrno priority msg s

/-- Modelled from the spec: the fixed priority used for fatal-level
emission.  The spec calls this level FATAL without assigning a number;
it is taken to be the most severe syslog level, EMERGENCY, the only
enumeration value at least as severe as every named wrapper level. -/
def FATAL_LEVEL : Int := LOG_EMERG

/-- Modelled from the spec: `logDebug` (declared `logger.h` line 136)
calls the primitive with the fixed priority `LOG_DEBUG`. -/
def logDebug (backendErrno : Int) (msg : String) (s : LogState) : LogState :=
  logMessage backendErrno LOG_DEBUG msg s

/-- Modelled from the spec: `logInfo` (declared `logger.h` line 143)
calls the primitive with the fixed priority `LOG_INFO`. -/
def logInfo (backendErrno : Int) (msg : String) (s : LogState) : LogState :=
  logMessage backendErrno LOG_INFO msg s

/-- Modelled from the spec: `logNotice` (declared `logger.h` line 150)
calls the primitive with the fixed priority `LOG_NOTICE`. -/
def logNotice (backendErrno : Int) (msg : String) (s : LogState) : LogState :=
  logMessage backendErrno LOG_NOTICE msg s

/-- Modelled from the spec: `logWarning` (declared `logger.h` line 157)
calls the primitive with the fixed priority `LOG_WARNING`. -/
def logWarning (backendErrno : Int) (msg : String) (s : LogState) : LogState :=
  logMessage backendErrno LOG_WARNING msg s

/-- Modelled from the spec: `logError` (declared `logger.h` line 164)
calls the primitive with the fixed priority `LOG_ERR`. -/
def logError (backendErrno : Int) (msg : String) (s : LogState) : LogState :=
  logMessage backendErrno LOG_ERR msg s

/-- Modelled from the spec: `logFatal` (declared `logger.h` line 285)
calls the primitive with the fixed fatal priority. -/
def logFatal (backendErrno : Int) (msg : String) (s : LogState) : LogState :=
  logMessage backendErrno FATAL_LEVEL msg s

/-- Modelled from the spec: the human-readable text for an errno-style or
UDS error code; the errors module supplying it is outside the snapshot,
so it is abstracted as an injective rendering of the code. -/
def stringError (errnum : Int) : String :=
  "error " ++ toString errnum

/-- Modelled from the spec: `vLogWithStringError` (declared `logger.h`
line 230) renders the message, appends the human-readable text for
`errnum`, emits at `priority`, and returns `errnum` unchanged. -/
def vLogWithStringError (backendErrno priority errnum : Int) (msg : String)
    (s : LogState) : Int × LogState :=
  (errnum, vLogMessage backendErrno priority (msg ++ ": " ++ stringError errnum) s)

/-- Modelled from the spec: `logWithStringError` (declared `logger.h`
line 217), the variadic form of `vLogWithStringError`. -/
def logWithStringError (backendErrno priority errnum : Int) (msg : String)
    (s : LogState) : Int × LogState :=
  vLogWithStringError backendErrno priority errnum msg s

/-- Modelled from the spec: `logDebugWithStringError` (declared
`logger.h` line 248). -/
def logDebugWithStringError (backendErrno errnum : Int) (msg : String)
    (s : LogState) : Int × LogState :=
  logWithStringError backendErrno LOG_DEBUG errnum msg s

/-- Modelled from the spec: `logInfoWithStringError` (declared
`logger.h` line 252). -/
def logInfoWithStringError (backendErrno errnum : Int) (msg : String)
    (s : LogState) : Int × LogState :=
  logWithStringError backendErrno LOG_INFO errnum msg s

/-- Modelled from the spec: `logNoticeWithStringError` (declared
`logger.h` line 256). -/
def logNoticeWithStringError (backendErrno errnum : Int) (msg : String)
    (s : LogState) : Int × LogState :=
  logWithStringError backendErrno LOG_NOTICE errnum msg s

/-- Modelled from the spec: `logWarningWithStringError` (declared
`logger.h` line 260). -/
def logWarningWithStringError (backendErrno errnum : Int) (msg : String)
    (s : LogState) : Int × LogState :=
  logWithStringError backendErrno LOG_WARNING errnum msg s

/-- Modelled from the spec: `logErrorWithStringError` (declared
`logger.h` line 244). -/
def logErrorWithStringError (backendErrno errnum : Int) (msg : String)
    (s : LogState) : Int × LogState :=
  logWithStringError backendErrno LOG_ERR errnum msg s

/-- Modelled from the spec: `logFatalWithStringError` (declared
`logger.h` line 264). -/
def logFatalWithStringError (backendErrno errnum : Int) (msg : String)
    (s : LogState) : Int × LogState :=
  logWithStringError backendErrno FATAL_LEVEL errnum msg s

/-- Modelled from the spec: the success sentinel of the UDS result-code
taxonomy; the errors module defining it is outside the snapshot. -/
def UDS_SUCCESS : Int := 0

/-- Modelled from the spec: the queued sentinel of the UDS result-code
taxonomy, distinct from `UDS_SUCCESS`; the errors module defining it is
outside the snapshot, so only its distinctness matters here. -/
def UDS_QUEUED : Int := 1009

/-- Modelled from the spec: `makeUnrecoverable` marks a result code as
escalated-to-unrecoverable so downstream logic treats it as
non-retryable; the errors module defining it is outside the snapshot.
It is modelled as shifting the code into a disjoint unrecoverable block,
which yields a code distinct from its argument. -/
def makeUnrecoverable (errnum : Int) : Int :=
  errnum + 66560

/-- Modelled from the spec: `logUnrecoverable` (declared `logger.h`
line 277, with its contract in the header comment at lines 267-276).
The `UDS_SUCCESS` and `UDS_QUEUED` results are not considered errors and
are returned unmodified with no logging; any other result is logged at
the fatal level with its error text and returned marked unrecoverable. -/
def logUnrecoverable (backendErrno errnum : Int) (msg : String)
    (s : LogState) : Int × LogState :=
  if errnum = UDS_SUCCESS ∨ errnum = UDS_QUEUED then
    (errnum, s)
  else
    (makeUnrecoverable errnum,
     (vLogWithStringError backendErrno FATAL_LEVEL errnum msg s).2)

/-- Modelled from the spec: `logEmbeddedMessage` (declared `logger.h`
line 175) concatenates an optional prefix and an optional first message
part (its format and arguments abstracted as the rendered string) with
the second message part, and emits the result as one logical message. -/
def logEmbeddedMessage (backendErrno priority : Int)
    (pfx fmt1 : Option String) (fmt2 : String) (s : LogState) : LogState :=
  vLogMessage backendErrno priority ((pfx.getD "") ++ (fmt1.getD "") ++ fmt2) s

/-- Modelled from the spec: `logBacktrace` (declared `logger.h` line
206) emits the current call stack at the given priority, best-effort;
the captured stack text is abstracted as an input supplied by the
runtime environment. -/
def logBacktrace (backendErrno priority : Int) (backtraceText : String)
    (s : LogState) : LogState :=
  vLogMessage backendErrno priority backtraceText s

/-- Uppercase an ASCII character, the comparison normalisation used by
the case-insensitive priority-name lookup. -/
def toUpperAscii (c : Char) : Char :=
  if 'a' ≤ c ∧ c ≤ 'z' then Char.ofNat (c.toNat - 32) else c

/-- Uppercase every character of a string. -/
def upperStr (s : String) : String :=
  String.mk (s.toList.map toUpperAscii)

/-- Modelled from the spec: `priorityToString` (declared `logger.h` line
129) returns the canonical printable name of a logging priority, with
placeholder text for out-of-range input. -/
def priorityToString (priority : Int) : String :=
  if priority = 0 then "EMERGENCY"
  else if priority = 1 then "ALERT"
  else if priority = 2 then "CRITICAL"
  else if priority = 3 then "ERROR"
  else if priority = 4 then "WARNING"
  else if priority = 5 then "NOTICE"
  else if priority = 6 then "INFO"
  else if priority = 7 then "DEBUG"
  else "unknown"

/-- Lookup of an already-uppercased name among the canonical priority
names, defaulting to `LOG_INFO`. -/
def priorityFromUpper (u : String) : Int :=
  if u = "EMERGENCY" then LOG_EMERG
  else if u = "ALERT" then LOG_ALERT
  else if u = "CRITICAL" then LOG_CRIT
  else if u = "ERROR" then LOG_ERR
  else if u = "WARNING" then LOG_WARNING
  else if u = "NOTICE" then LOG_NOTICE
  else if u = "INFO" then LOG_INFO
  else if u = "DEBUG" then LOG_DEBUG
  else LOG_INFO

/-- Modelled from the spec: `stringToPriority` (declared `logger.h` line
122) performs a case-insensitive lookup of a priority name and returns
`LOG_INFO` when the name is not recognized. -/
def stringToPriority (string : String) : Int :=
  priorityFromUpper (upperStr string)

/-- The canonical priority names recognized (case-insensitively) by
`stringToPriority`. -/
def canonicalPriorityNames : List String :=
  ["EMERGENCY", "ALERT", "CRITICAL", "ERROR", "WARNING", "NOTICE", "INFO", "DEBUG"]

/-! ### The `logRatelimit` macro, from `logger.h` lines 63-74

In kernel builds the macro declares a per-call-site static rate-limit
state and invokes the wrapped log call only inside
`if (__ratelimit(&_rs))`, so when the limiter denies the call neither
the log function nor its argument expressions are evaluated.  The
limiter `__ratelimit` itself is an external kernel facility; its
decision enters the model as the boolean `allow`.  C evaluates the
argument expressions (which may have side effects) before the call, so
argument evaluation is modelled as its own state transition `evalArgs`
producing the argument values, and the wrapped function consumes those
values. -/

def logRatelimitKernel {α : Type} (allow : Bool)
    (evalArgs : LogState → LogState × α) (logFunc : α → LogState → LogState)
    (s : LogState) : LogState :=
  if allow then
    let p := evalArgs s
    logFunc p.2 p.1
  else
    s

/-- In non-kernel builds (`logger.h` line 73) the macro expands to the
direct call `logFunc(__VA_ARGS__)` with no limiting. -/
def logRatelimitUser {α : Type}
    (evalArgs : LogState → LogState × α) (logFunc : α → LogState → LogState)
    (s : LogState) : LogState :=
  let p := evalArgs s
  logFunc p.2 p.1

/-! ### The `PRIptr` format specifier, from `logger.h` lines 44-54 -/

/-- The compile-time selection of the pointer format specifier:
`"px"` for kernel builds with `LOG_INTERNAL` defined (development),
`"pK"` for kernel builds without it (production), and `"p"` for
user-space builds. -/
def PRIptr (kernel logInternal : Bool) : String :=
  if kernel then (if logInternal then "px" else "pK") else "p"

/-- Modelled from the spec: how the external backend formatter renders a
pointer argument under a given specifier.  The kernel redacts `%pK`
output for unprivileged readers to an opaque token independent of the
pointer value, while `%px` and the user-space `%p` render the raw
address. -/
def renderPointer (specifier : String) (addr : Nat) : String :=
  if specifier = "pK" then "(redacted)" else toString addr

/-! ### Theorems settling the claims -/

/-- C1: `logUnrecoverable` returns `UDS_SUCCESS` and `UDS_QUEUED`
unchanged without escalating or logging, and for every other code it
logs a fatal-level message and returns `makeUnrecoverable` of the code,
a value distinct from the code itself. -/
theorem logUnrecoverable_contract :
    ∀ (backendErrno errnum : Int) (msg : String) (s : LogState),
      (errnum = UDS_SUCCESS →
        logUnrecoverable backendErrno errnum msg s = (errnum, s)) ∧
      (errnum = UDS_QUEUED →
        logUnrecoverable backendErrno errnum msg s = (errnum, s)) ∧
      (errnum ≠ UDS_SUCCESS → errnum ≠ UDS_QUEUED →
        (logUnrecoverable backendErrno errnum msg s).1 = makeUnrecoverable errnum ∧
        makeUnrecoverable errnum ≠ errnum ∧
        (FATAL_LEVEL ≤ getLogLevel s →
          (logUnrecoverable backendErrno errnum msg s).2.backendCalls
            = s.backendCalls ++ [(FATAL_LEVEL, msg ++ ": " ++ stringError errnum)])) := by
  intro be e msg s
  refine ⟨?_, ?_, ?_⟩
  · intro h
    simp [logUnrecoverable, h]
  · intro h
    simp [logUnrecoverable, h]
  · intro h1 h2
    have hc : ¬ (e = UDS_SUCCESS ∨ e = UDS_QUEUED) := by
      intro hd
      rcases hd with hd | hd
      · exact h1 hd
      · exact h2 hd
    refine ⟨?_, ?_, ?_⟩
    · simp [logUnrecoverable, hc]
    · unfold makeUnrecoverable
      omega
    · intro hlev
      simp [logUnrecoverable, hc, vLogWithStringError, vLogMessage, backendEmit, hlev]

/-- Closed instance of C1 at the concrete error code 5. -/
theorem logUnrecoverable_contract_witness :
    (logUnrecoverable 0 5 "x" ⟨LOG_INFO, [], 0⟩).1 = makeUnrecoverable 5 ∧
    makeUnrecoverable 5 ≠ 5 ∧
    (logUnrecoverable 0 5 "x" ⟨LOG_INFO, [], 0⟩).2.backendCalls
      = [] ++ [(FATAL_LEVEL, "x" ++ ": " ++ stringError 5)] := by
  have h := (logUnrecoverable_contract 0 5 "x" ⟨LOG_INFO, [], 0⟩).2.2
    (by decide) (by decide)
  exact ⟨h.1, h.2.1, h.2.2 (by decide)⟩

/-- C2: `logMessage` makes no backend call when the priority is
numerically less urgent than the configured level, and makes exactly one
backend call (appending exactly one trace entry) otherwise. -/
theorem logMessage_threshold :
    ∀ (backendErrno priority : Int) (msg : String) (s : LogState),
      (getLogLevel s < priority →
        (logMessage backendErrno priority msg s).backendCalls = s.backendCalls) ∧
      (priority ≤ getLogLevel s →
        (logMessage backendErrno priority msg s).backendCalls
          = s.backendCalls ++ [(priority, msg)]) := by
  intro be p msg s
  constructor
  · intro h
    have hn : ¬ p ≤ getLogLevel s := by omega
    simp [logMessage, vLogMessage, hn]
  · intro h
    simp [logMessage, vLogMessage, backendEmit, h]

/-- Closed instance of C2: a debug message is dropped at level INFO and
an error message is forwarded in exactly one backend call. -/
theorem logMessage_threshold_witness :
    (logMessage 7 LOG_DEBUG "m" ⟨LOG_INFO, [], 0⟩).backendCalls = [] ∧
    (logMessage 7 LOG_ERR "m" ⟨LOG_INFO, [], 0⟩).backendCalls
      = [] ++ [(LOG_ERR, "m")] :=
  ⟨(logMessage_threshold 7 LOG_DEBUG "m" ⟨LOG_INFO, [], 0⟩).1 (by decide),
   (logMessage_threshold 7 LOG_ERR "m" ⟨LOG_INFO, [], 0⟩).2 (by decide)⟩

/-- C3: every emission operation leaves the caller's ambient last-error
indicator exactly as it was found, even though the backend call sets it
to an arbitrary value `backendErrno`. -/
theorem errno_preserved :
    ∀ (backendErrno priority errnum : Int) (msg btxt fmt2 : String)
      (pfx fmt1 : Option String) (s : LogState),
      (logDebug backendErrno msg s).errno = s.errno ∧
      (logInfo backendErrno msg s).errno = s.errno ∧
      (logNotice backendErrno msg s).errno = s.errno ∧
      (logWarning backendErrno msg s).errno = s.errno ∧
      (logError backendErrno msg s).errno = s.errno ∧
      (logFatal backendErrno msg s).errno = s.errno ∧
      (logMessage backendErrno priority msg s).errno = s.errno ∧
      (vLogMessage backendErrno priority msg s).errno = s.errno ∧
      (logWithStringError backendErrno priority errnum msg s).2.errno = s.errno ∧
      (vLogWithStringError backendErrno priority errnum msg s).2.errno = s.errno ∧
      (logDebugWithStringError backendErrno errnum msg s).2.errno = s.errno ∧
      (logInfoWithStringError backendErrno errnum msg s).2.errno = s.errno ∧
      (logNoticeWithStringError backendErrno errnum msg s).2.errno = s.errno ∧
      (logWarningWithStringError backendErrno errnum msg s).2.errno = s.errno ∧
      (logErrorWithStringError backendErrno errnum msg s).2.errno = s.errno ∧
      (logFatalWithStringError backendErrno errnum msg s).2.errno = s.errno ∧
      (logEmbeddedMessage backendErrno priority pfx fmt1 fmt2 s).errno = s.errno ∧
      (logBacktrace backendErrno priority btxt s).errno = s.errno ∧
      (logUnrecoverable backendErrno errnum msg s).2.errno = s.errno := by
  intro be p e msg btxt fmt2 pfx fmt1 s
  refine ⟨rfl, rfl, rfl, rfl, rfl, rfl, rfl, rfl, rfl, rfl, rfl, rfl, rfl, rfl,
    rfl, rfl, rfl, rfl, ?_⟩
  unfold logUnrecoverable
  split
  · rfl
  · rfl

/-- C4: the error-annotated emitters return their error code unchanged,
whatever the priority, the configured level and the rest of the state. -/
theorem withStringError_returns_errnum :
    ∀ (backendErrno priority errnum : Int) (msg : String) (s : LogState),
      (vLogWithStringError backendErrno priority errnum msg s).1 = errnum ∧
      (logWithStringError backendErrno priority errnum msg s).1 = errnum ∧
      (logDebugWithStringError backendErrno errnum msg s).1 = errnum ∧
      (logInfoWithStringError backendErrno errnum msg s).1 = errnum ∧
      (logNoticeWithStringError backendErrno errnum msg s).1 = errnum ∧
      (logWarningWithStringError backendErrno errnum msg s).1 = errnum ∧
      (logErrorWithStringError backendErrno errnum msg s).1 = errnum ∧
      (logFatalWithStringError backendErrno errnum msg s).1 = errnum :=
  fun _ _ _ _ _ => ⟨rfl, rfl, rfl, rfl, rfl, rfl, rfl, rfl⟩

/-- C5: for every valid priority and every case variant of its canonical
name, the name-to-priority and priority-to-name mappings round-trip. -/
theorem priorityName_roundTrip :
    ∀ p : Int, 0 ≤ p → p ≤ 7 → ∀ name : String,
      upperStr name = priorityToString p →
      stringToPriority name = p ∧
      priorityToString (stringToPriority name) = priorityToString p := by
  intro p h0 h7 name h
  have hp : p = 0 ∨ p = 1 ∨ p = 2 ∨ p = 3 ∨ p = 4 ∨ p = 5 ∨ p = 6 ∨ p = 7 := by
    omega
  rcases hp with rfl | rfl | rfl | rfl | rfl | rfl | rfl | rfl <;>
    exact ⟨by unfold stringToPriority; rw [h]; decide,
      by unfold stringToPriority; rw [h]; decide⟩

/-- Closed instance of C5 at the mixed-case spelling "Error". -/
theorem priorityName_roundTrip_witness :
    stringToPriority "Error" = 3 ∧
    priorityToString (stringToPriority "Error") = priorityToString 3 :=
  priorityName_roundTrip 3 (by decide) (by decide) "Error" (by decide)

/-- C6: on any string that is not a case-insensitive match of a
canonical priority name, `stringToPriority` silently returns
`LOG_INFO`. -/
theorem stringToPriority_fallback :
    ∀ string : String, upperStr string ∉ canonicalPriorityNames →
      stringToPriority string = LOG_INFO := by
  intro s h
  simp [canonicalPriorityNames] at h
  obtain ⟨h1, h2, h3, h4, h5, h6, h7, h8⟩ := h
  simp [stringToPriority, priorityFromUpper, h1, h2, h3, h4, h5, h6, h7, h8]

/-- Closed instance of C6 at the unrecognized name "bogus". -/
theorem stringToPriority_fallback_witness :
    stringToPriority "bogus" = LOG_INFO :=
  stringToPriority_fallback "bogus" (by decide)

/-- C7: in kernel builds a denied call leaves the state untouched and is
independent of the wrapped function and of its argument computation
(no argument evaluation, no side effects), an allowed call performs
exactly the one wrapped call on the evaluated arguments, and the
non-kernel wrapper is a direct pass-through. -/
theorem logRatelimit_contract :
    ∀ (α : Type) (allow : Bool) (evalArgs : LogState → LogState × α)
      (logFunc : α → LogState → LogState) (s : LogState),
      (allow = false → logRatelimitKernel allow evalArgs logFunc s = s) ∧
      (allow = false →
        ∀ (evalArgs2 : LogState → LogState × α)
          (logFunc2 : α → LogState → LogState),
          logRatelimitKernel allow evalArgs logFunc s
            = logRatelimitKernel allow evalArgs2 logFunc2 s) ∧
      (allow = true →
        logRatelimitKernel allow evalArgs logFunc s
          = logFunc (evalArgs s).2 (evalArgs s).1) ∧
      logRatelimitUser evalArgs logFunc s
        = logFunc (evalArgs s).2 (evalArgs s).1 := by
  intro α allow e f s
  refine ⟨?_, ?_, ?_, rfl⟩
  · rintro rfl
    rfl
  · rintro rfl
    intro e2 f2
    rfl
  · rintro rfl
    rfl

/-- Closed instance of C7: a denied call changes nothing even though its
argument computation would have changed the state, and an allowed call
equals the direct call. -/
theorem logRatelimit_contract_witness :
    logRatelimitKernel false (fun s => (setLogLevel LOG_DEBUG s, (0 : Int)))
        (fun _ s => logInfo 0 "m" s) ⟨LOG_INFO, [], 0⟩ = ⟨LOG_INFO, [], 0⟩ ∧
    logRatelimitKernel true (fun s => (s, (0 : Int)))
        (fun _ s => logInfo 0 "m" s) ⟨LOG_INFO, [], 0⟩
      = logInfo 0 "m" ⟨LOG_INFO, [], 0⟩ :=
  ⟨(logRatelimit_contract Int false (fun s => (setLogLevel LOG_DEBUG s, (0 : Int)))
      (fun _ s => logInfo 0 "m" s) ⟨LOG_INFO, [], 0⟩).1 rfl,
   (logRatelimit_contract Int true (fun s => (s, (0 : Int)))
      (fun _ s => logInfo 0 "m" s) ⟨LOG_INFO, [], 0⟩).2.2.1 rfl⟩

/-- C8: each per-level convenience function equals the base primitive
`logMessage` at its fixed priority, with fatal at the most severe
level. -/
theorem wrappers_eq_logMessage :
    ∀ (backendErrno : Int) (msg : String) (s : LogState),
      logDebug backendErrno msg s = logMessage backendErrno LOG_DEBUG msg s ∧
      logInfo backendErrno msg s = logMessage backendErrno LOG_INFO msg s ∧
      logNotice backendErrno msg s = logMessage backendErrno LOG_NOTICE msg s ∧
      logWarning backendErrno msg s = logMessage backendErrno LOG_WARNING msg s ∧
      logError backendErrno msg s = logMessage backendErrno LOG_ERR msg s ∧
      logFatal backendErrno msg s = logMessage backendErrno LOG_EMERG msg s :=
  fun _ _ _ => ⟨rfl, rfl, rfl, rfl, rfl, rfl⟩

/-- C9: the pointer format specifier is `"pK"` in production kernel
builds, `"px"` in development kernel builds and `"p"` in user space;
the production-kernel rendering is an opaque token independent of the
pointer value, while the other builds render the raw address. -/
theorem PRIptr_selection :
    PRIptr true false = "pK" ∧
    PRIptr true true = "px" ∧
    PRIptr false false = "p" ∧
    PRIptr false true = "p" ∧
    (∀ a1 a2 : Nat,
      renderPointer (PRIptr true false) a1 = renderPointer (PRIptr true false) a2) ∧
    (∀ a : Nat, renderPointer (PRIptr true true) a = toString a) ∧
    (∀ a : Nat, renderPointer (PRIptr false false) a = toString a) := by
  refine ⟨rfl, rfl, rfl, rfl, ?_, ?_, ?_⟩
  · intro a1 a2
    simp [renderPointer, PRIptr]
  · intro a
    unfold renderPointer PRIptr
    rw [if_pos rfl, if_pos rfl, if_neg (by decide)]
  · intro a
    unfold renderPointer PRIptr
    rw [if_neg (by decide)]

/-- C10: the priority constants carry the syslog encoding 0 through 7,
smaller meaning more severe, and the emission test of `logMessage`
forwards a message exactly when the priority is numerically at most the
configured level. -/
theorem priority_encoding :
    LOG_EMERG = 0 ∧ LOG_ALERT = 1 ∧ LOG_CRIT = 2 ∧ LOG_ERR = 3 ∧
    LOG_WARNING = 4 ∧ LOG_NOTICE = 5 ∧ LOG_INFO = 6 ∧ LOG_DEBUG = 7 ∧
    ∀ (backendErrno priority : Int) (msg : String) (s : LogState),
      ((logMessage backendErrno priority msg s).backendCalls.length
          = s.backendCalls.length + 1 ↔ priority ≤ getLogLevel s) := by
  refine ⟨rfl, rfl, rfl, rfl, rfl, rfl, rfl, rfl, ?_⟩
  intro be p msg s
  by_cases h : p ≤ getLogLevel s
  · simp [logMessage, vLogMessage, backendEmit, h]
  · simp [logMessage, vLogMessage, h]

end UdsLogger
